import Mathlib

/-!
Azure Key Vault / Managed HSM engine: key loading and the method registry.

A shallow embedding of `src/src/dllmain.c`.

Build configuration embedded here:

* `OPENSSL_VERSION_NUMBER >= 0x30000000L`.  The globals `akv_rsa_pkey_meth` and
  `akv_rsa_pss_pkey_meth` are declared only in that branch (lines 13-15) and are used
  unconditionally by `akv_destroy` and `akv_pkey_meths`, so this is the configuration in
  which the file compiles.
* not `_WIN32`: `load_key` scans the identifier with `sscanf` (lines 231-235).

Conventions:

* a C string is the list of its characters before the terminating NUL, one character for
  one `char`;
* a pointer is a natural number and `0` is `NULL`;
* OpenSSL key objects are values: an `EVP_PKEY` carries what `EVP_PKEY_id`,
  `EVP_PKEY_get0_RSA` and `EVP_PKEY_get0_EC_KEY` return for it, and an `RSA` / `EC_KEY`
  object is its `CRYPTO_EX_DATA` stack, the only part of it this file touches;
* the external collaborators are the fields of `Env`; every call the code makes that the
  claims count (error reports, collaborator calls, releases) is appended to a trace.
-/

namespace AKV

/-! ## C strings and the two libc functions `load_key` uses -/

/-- A C pointer; `0` is `NULL`. -/
abbrev Ptr := Nat

/-- The characters of a C string before its terminating NUL. -/
abbrev CString := List Char

/-- The conversion `%[^:]` of `sscanf`: the longest run of characters other than `:` at the
front of the input, and the input left after it.  The conversion fails when the run is
empty. -/
def scanset_not_colon : CString → CString × CString
  | [] => ([], [])
  | c :: cs =>
    if c = ':' then ([], c :: cs)
    else ((c :: (scanset_not_colon cs).1), (scanset_not_colon cs).2)

/-- What `sscanf(key_id, "%[^:]:%[^:]:%[^:]", keyvault_type, keyvault_name, key_name)` did:
its return value and the buffers it stored into (a buffer not listed is left untouched). -/
inductive Scan where
  | eof
  | s0
  | s1 (keyvault_type : CString)
  | s2 (keyvault_type keyvault_name : CString)
  | s3 (keyvault_type keyvault_name key_name : CString)
  deriving DecidableEq, Repr

/-- The value `sscanf` returns: the number of conversions stored, or `EOF` (-1) when the
input ends before the first conversion. -/
def Scan.scanned : Scan → Int
  | .eof => -1
  | .s0 => 0
  | .s1 _ => 1
  | .s2 _ _ => 2
  | .s3 _ _ _ => 3

/-- Bytes `sscanf` stored into each of `keyvault_type`, `keyvault_name`, `key_name`: the
characters of the run and the terminating NUL.  The conversions carry no field width, so the
count does not depend on the size of the destination. -/
def Scan.stored : Scan → Nat × Nat × Nat
  | .eof => (0, 0, 0)
  | .s0 => (0, 0, 0)
  | .s1 a => (a.length + 1, 0, 0)
  | .s2 a b => (a.length + 1, b.length + 1, 0)
  | .s3 a b c => (a.length + 1, b.length + 1, c.length + 1)

/-- The directive `:` of the format: the next input character must be `:`. -/
def literal_colon : CString → Option CString
  | [] => none
  | c :: r => if c = ':' then some r else none

/-- The call `sscanf(key_id, "%[^:]:%[^:]:%[^:]", ...)` of lines 231-235.  The directives
are processed left to right and scanning stops at the first one that fails; input left after
the last directive is not looked at. -/
def sscanf_key_id (key_id : CString) : Scan :=
  if key_id = [] then .eof
  else
    let m1 := scanset_not_colon key_id
    if m1.1 = [] then .s0
    else
      match literal_colon m1.2 with
      | none => .s1 m1.1
      | some r1 =>
        let m2 := scanset_not_colon r1
        if m2.1 = [] then .s1 m1.1
        else
          match literal_colon m2.2 with
          | none => .s2 m1.1 m2.1
          | some r2 =>
            let m3 := scanset_not_colon r2
            if m3.1 = [] then .s2 m1.1 m2.1
            else .s3 m1.1 m2.1 m3.1

/-- POSIX `strcasecmp`: compares the two strings character by character after `tolower`,
and returns the difference of the first pair that differs (the end of a string reads as
NUL), or 0. -/
def strcasecmp : CString → CString → Int
  | [], [] => 0
  | [], d :: _ => 0 - (d.toLower.toNat : Int)
  | c :: _, [] => (c.toLower.toNat : Int)
  | c :: cs, d :: ds =>
    if c.toLower = d.toLower then strcasecmp cs ds
    else (c.toLower.toNat : Int) - (d.toLower.toNat : Int)

/-! ## OpenSSL objects -/

/-- An object's `CRYPTO_EX_DATA`: its stack of `void *` slots. -/
abbrev ExData := List Ptr

/-- The function `CRYPTO_get_ex_data`: the slot at `idx`, `NULL` when there is no such
slot. -/
def CRYPTO_get_ex_data (ad : ExData) (idx : Int) : Ptr :=
  if idx < 0 then 0 else ad.getD idx.toNat 0

/-- The function `CRYPTO_set_ex_data`: grows the stack with `NULL` slots up to `idx` and
stores `val` there; with a negative `idx` nothing is stored.  (The code never looks at its
return value.) -/
def CRYPTO_set_ex_data (ad : ExData) (idx : Int) (val : Ptr) : ExData :=
  if idx < 0 then ad
  else (ad ++ List.replicate (idx.toNat + 1 - ad.length) 0).set idx.toNat val

/-- An `RSA` object. -/
structure RSA where
  ex_data : ExData
  deriving DecidableEq, Repr

/-- An `EC_KEY` object. -/
structure EC_KEY where
  ex_data : ExData
  deriving DecidableEq, Repr

/-- An `EVP_PKEY` object: `id` is `EVP_PKEY_id`, `rsa` is `EVP_PKEY_get0_RSA` and `ec` is
`EVP_PKEY_get0_EC_KEY` (`none` for `NULL`). -/
structure EVP_PKEY where
  id : Int
  rsa : Option RSA
  ec : Option EC_KEY
  deriving DecidableEq, Repr

/-- OpenSSL: `NID_rsaEncryption`. -/
def EVP_PKEY_RSA : Int := 6
/-- OpenSSL: `NID_rsassaPss`. -/
def EVP_PKEY_RSA_PSS : Int := 912
/-- OpenSSL: `NID_X9_62_id_ecPublicKey`. -/
def EVP_PKEY_EC : Int := 408

/-! ## Globals, errors, trace -/

/-- The file-scope variables of `dllmain.c` (lines 14-21) with their initial values. -/
structure Globals where
  akv_rsa_pkey_meth : Ptr := 0
  akv_rsa_pss_pkey_meth : Ptr := 0
  akv_idx : Int := -1
  rsa_akv_idx : Int := -1
  eckey_akv_idx : Int := -1
  pkey_akv_idx : Int := -1
  deriving DecidableEq, Repr

/-- Function codes passed to `AKVerr`. -/
inductive Func where
  | AKV_F_INIT
  | AKV_F_LOAD_KEY_CERT
  deriving DecidableEq, Repr

/-- Reason codes passed to `AKVerr` in this file. -/
inductive Reason where
  | AKV_R_ALLOC_FAILURE
  | AKV_R_PARSE_KEY_ID_ERROR
  | AKV_R_CANT_GET_KEY
  | AKV_R_LOAD_PUBKEY_ERROR
  | AKV_R_INVALID_RSA
  | AKV_R_INVALID_EC_KEY
  | AKV_R_UNSUPPORTED_KEY_ALGORITHM
  deriving DecidableEq, Repr

/-- The calls recorded in a trace, in program order; a collaborator call is recorded with
the value it returned. -/
inductive Event where
  | AKVerr (f : Func) (r : Reason)
  | acquire_akv_key (keyvault_type keyvault_name key_name : CString) (ret : Ptr)
  | GetAccessTokenFromIMDS (keyvault_type : CString) (ret : Int) (memory : Ptr)
  | AkvGetKey (keyvault_type keyvault_name key_name : CString) (memory : Ptr)
      (ret : Option EVP_PKEY)
  | RSA_set_ex_data (idx : Int) (val : Ptr)
  | EC_KEY_set_ex_data (idx : Int) (val : Ptr)
  | EVP_PKEY_free (pkey : EVP_PKEY)
  | destroy_akv_key (key : Ptr)
  | free (p : Ptr)
  | ENGINE_get_ex_new_index (ret : Int)
  | RSA_get_ex_new_index (ret : Int)
  | EC_KEY_get_ex_new_index (ret : Int)
  | EVP_PKEY_meth_new_rsa (ret : Ptr)
  | EVP_PKEY_meth_new_rsa_pss (ret : Ptr)
  deriving DecidableEq, Repr

/-- The external collaborators of `load_key`, one field per function: what it returns for the
arguments it is given.  `GetAccessTokenFromIMDS` returns its `int` result and the value it
leaves in `accessToken.memory`. -/
structure Env where
  acquire_akv_key : CString → CString → CString → Ptr
  GetAccessTokenFromIMDS : CString → Int × Ptr
  AkvGetKey : CString → CString → CString → Ptr → Option EVP_PKEY

/-! ## `load_key` (lines 214-329) -/

/-- What a call of `load_key` leaves behind: its return value, `*pevpkey`, the calls it made,
and the bytes `sscanf` stored into the three `KEY_ID_MAX_SIZE + 1` byte buffers. -/
structure Result where
  ret : Int
  pevpkey : Option EVP_PKEY
  trace : List Event
  stored : Nat × Nat × Nat
  deriving DecidableEq, Repr

/-- The `err:` label (lines 320-328) reached with the given values of `pkey`, `key` and
`accessToken.memory`. -/
def load_key_err (pkey : Option EVP_PKEY) (key : Ptr) (memory : Ptr) (tr : List Event)
    (stored : Nat × Nat × Nat) : Result :=
  let tr1 := match pkey with
    | some p => tr ++ [Event.EVP_PKEY_free p]
    | none => tr
  let tr2 := if key ≠ 0 then tr1 ++ [Event.destroy_akv_key key] else tr1
  let tr3 := if memory ≠ 0 then tr2 ++ [Event.free memory] else tr2
  { ret := 0, pevpkey := none, trace := tr3, stored := stored }

/-- The function `load_key`.  `indeterminate` is the content of the storage of
`accessToken.memory` before its initialiser `= {0}` (line 256) has run: a `goto err` taken
before line 256 jumps over the initialiser, and the `err:` label then reads that storage.
The test `scanned != 3` of line 237 is the match on the scan: `scanned` is 3 exactly for
`Scan.s3` (`scanned_eq_three_iff`).

The three buffers hold `KEY_ID_MAX_SIZE + 1` bytes each, and `sscanf` is not told so.  The
embedding follows the code as long as `sscanf` stays within them (`within_buffers`, read off
the field `stored`); once a buffer is overrun the behaviour of the C code is undefined and
only `stored`, which records the overrun, speaks for the code. -/
def load_key (env : Env) (g : Globals) (indeterminate : Ptr) (key_id : CString) : Result :=
  let sc := sscanf_key_id key_id
  match sc with
  | .s3 keyvault_type keyvault_name key_name =>
    if strcasecmp keyvault_type "managedHsm".toList ≠ 0
        ∧ strcasecmp keyvault_type "vault".toList ≠ 0 then
      load_key_err none 0 indeterminate
        [.AKVerr .AKV_F_LOAD_KEY_CERT .AKV_R_PARSE_KEY_ID_ERROR] sc.stored
    else
      let key := env.acquire_akv_key keyvault_type keyvault_name key_name
      let tr := [Event.acquire_akv_key keyvault_type keyvault_name key_name key]
      if key = 0 then
        load_key_err none 0 indeterminate
          (tr ++ [.AKVerr .AKV_F_LOAD_KEY_CERT .AKV_R_CANT_GET_KEY]) sc.stored
      else
        let tok := env.GetAccessTokenFromIMDS keyvault_type
        let tr := tr ++ [Event.GetAccessTokenFromIMDS keyvault_type tok.1 tok.2]
        if tok.1 = 0 then
          load_key_err none key tok.2 tr sc.stored
        else
          let fetched := env.AkvGetKey keyvault_type keyvault_name key_name tok.2
          let tr := tr ++ [Event.AkvGetKey keyvault_type keyvault_name key_name tok.2 fetched]
          match fetched with
          | none =>
            load_key_err none key tok.2
              (tr ++ [.AKVerr .AKV_F_LOAD_KEY_CERT .AKV_R_LOAD_PUBKEY_ERROR]) sc.stored
          | some pkey =>
            if pkey.id = EVP_PKEY_RSA then
              match pkey.rsa with
              | none =>
                load_key_err (some pkey) key tok.2
                  (tr ++ [.AKVerr .AKV_F_LOAD_KEY_CERT .AKV_R_INVALID_RSA]) sc.stored
              | some rsa =>
                let rsa1 : RSA := { ex_data := CRYPTO_set_ex_data rsa.ex_data g.rsa_akv_idx key }
                { ret := 1
                  pevpkey := some { pkey with rsa := some rsa1 }
                  trace := tr ++ [.RSA_set_ex_data g.rsa_akv_idx key, .free tok.2]
                  stored := sc.stored }
            else if pkey.id = EVP_PKEY_EC then
              match pkey.ec with
              | none =>
                load_key_err (some pkey) key tok.2
                  (tr ++ [.AKVerr .AKV_F_LOAD_KEY_CERT .AKV_R_INVALID_EC_KEY]) sc.stored
              | some ec =>
                let ec1 : EC_KEY :=
                  { ex_data := CRYPTO_set_ex_data ec.ex_data g.eckey_akv_idx key }
                { ret := 1
                  pevpkey := some { pkey with ec := some ec1 }
                  trace := tr ++ [.EC_KEY_set_ex_data g.eckey_akv_idx key, .free tok.2]
                  stored := sc.stored }
            else
              load_key_err (some pkey) key tok.2
                (tr ++ [.AKVerr .AKV_F_LOAD_KEY_CERT .AKV_R_UNSUPPORTED_KEY_ALGORITHM])
                sc.stored
  | _ =>
    load_key_err none 0 indeterminate
      [.AKVerr .AKV_F_LOAD_KEY_CERT .AKV_R_PARSE_KEY_ID_ERROR] sc.stored

/-! ## Teardown redirectors (lines 49-93) -/

/-- The function `akv_rsa_free`: its return value, the `RSA` object afterwards, and the calls
it made. -/
def akv_rsa_free (g : Globals) (rsa : RSA) : Int × RSA × List Event :=
  let akv_key := CRYPTO_get_ex_data rsa.ex_data g.rsa_akv_idx
  if akv_key = 0 then (1, rsa, [])
  else
    (1, { ex_data := CRYPTO_set_ex_data rsa.ex_data g.rsa_akv_idx 0 },
      [Event.destroy_akv_key akv_key, Event.RSA_set_ex_data g.rsa_akv_idx 0])

/-- The function `akv_eckey_free`: the `EC_KEY` object afterwards and the calls it made. -/
def akv_eckey_free (g : Globals) (eckey : EC_KEY) : EC_KEY × List Event :=
  let akv_key := CRYPTO_get_ex_data eckey.ex_data g.eckey_akv_idx
  if akv_key = 0 then (eckey, [])
  else
    ({ ex_data := CRYPTO_set_ex_data eckey.ex_data g.eckey_akv_idx 0 },
      [Event.destroy_akv_key akv_key, Event.EC_KEY_set_ex_data g.eckey_akv_idx 0])

/-! ## The registry: `akv_init` (lines 101-155) and `akv_pkey_meths` (lines 378-436) -/

/-- What each index allocator returns if `akv_init` calls it: a fresh index, or a negative
value on failure. -/
structure IndexAllocators where
  ENGINE_get_ex_new_index : Int
  RSA_get_ex_new_index : Int
  EC_KEY_get_ex_new_index : Int
  deriving DecidableEq, Repr

/-- The `err:` label of `akv_init`. -/
def akv_init_err (g : Globals) (tr : List Event) : Int × Globals × List Event :=
  (0, g, tr ++ [Event.AKVerr .AKV_F_INIT .AKV_R_ALLOC_FAILURE])

/-- The function `akv_init`: its return value, the globals afterwards, and the calls it
made. -/
def akv_init (o : IndexAllocators) (g : Globals) : Int × Globals × List Event :=
  if g.akv_idx < 0 then
    let g1 := { g with akv_idx := o.ENGINE_get_ex_new_index }
    let tr1 := [Event.ENGINE_get_ex_new_index o.ENGINE_get_ex_new_index]
    if g1.akv_idx < 0 then akv_init_err g1 tr1
    else
      let g2 := { g1 with rsa_akv_idx := o.RSA_get_ex_new_index }
      let tr2 := tr1 ++ [Event.RSA_get_ex_new_index o.RSA_get_ex_new_index]
      if g2.rsa_akv_idx < 0 then akv_init_err g2 tr2
      else
        let g3 := { g2 with eckey_akv_idx := o.EC_KEY_get_ex_new_index }
        let tr3 := tr2 ++ [Event.EC_KEY_get_ex_new_index o.EC_KEY_get_ex_new_index]
        if g3.eckey_akv_idx < 0 then akv_init_err g3 tr3
        else (1, g3, tr3)
  else (1, g, [])

/-- What `akv_pkey_meths` returned and wrote: its return value, `*pmeth` when it was
written, and the table stored in `*nids` when it was written. -/
structure MethsOut where
  ret : Int
  pmeth : Option Ptr
  nids : Option (List Int)
  deriving DecidableEq, Repr

/-- The function `akv_pkey_meths`.  `pmeth_null` says whether the argument `pmeth` is
`NULL`; `meth_new` is what `EVP_PKEY_meth_new` returns if it is called and `meth_find` what
`EVP_PKEY_meth_find(nid)` returns.  The calls that fill a new table (`EVP_PKEY_meth_copy`,
`EVP_PKEY_meth_set_sign`) change no global and are not recorded; the value of
`EVP_PKEY_meth_new` is not tested by the code before these calls. -/
def akv_pkey_meths (pmeth_null : Bool) (nid : Int) (meth_new meth_find : Ptr) (g : Globals) :
    MethsOut × Globals × List Event :=
  if pmeth_null then
    ({ ret := 3, pmeth := none, nids := some [EVP_PKEY_RSA, EVP_PKEY_RSA_PSS, EVP_PKEY_EC] },
      g, [])
  else if nid = EVP_PKEY_RSA then
    if g.akv_rsa_pkey_meth = 0 then
      ({ ret := 1, pmeth := some meth_new, nids := none },
        { g with akv_rsa_pkey_meth := meth_new }, [Event.EVP_PKEY_meth_new_rsa meth_new])
    else ({ ret := 1, pmeth := some g.akv_rsa_pkey_meth, nids := none }, g, [])
  else if nid = EVP_PKEY_RSA_PSS then
    if g.akv_rsa_pss_pkey_meth = 0 then
      ({ ret := 1, pmeth := some meth_new, nids := none },
        { g with akv_rsa_pss_pkey_meth := meth_new },
        [Event.EVP_PKEY_meth_new_rsa_pss meth_new])
    else ({ ret := 1, pmeth := some g.akv_rsa_pss_pkey_meth, nids := none }, g, [])
  else if nid = EVP_PKEY_EC then
    ({ ret := 1, pmeth := some meth_find, nids := none }, g, [])
  else ({ ret := 0, pmeth := some 0, nids := none }, g, [])

/-- One call of the registry by the host. -/
inductive Call where
  | akv_init (o : IndexAllocators)
  | akv_pkey_meths (pmeth_null : Bool) (nid : Int) (meth_new meth_find : Ptr)
  deriving DecidableEq, Repr

/-- The globals after one call and the calls it made. -/
def Call.step (g : Globals) : Call → Globals × List Event
  | .akv_init o => (AKV.akv_init o g).2
  | .akv_pkey_meths pmeth_null nid meth_new meth_find =>
    (AKV.akv_pkey_meths pmeth_null nid meth_new meth_find g).2

/-- A sequence of calls made one after the other, starting from `g`: the globals at the end
and everything the calls did, in order. -/
def run (g : Globals) : List Call → Globals × List Event
  | [] => (g, [])
  | c :: cs => ((run (c.step g).1 cs).1, (c.step g).2 ++ (run (c.step g).1 cs).2)

/-! ## Reading a trace -/

/-- The reasons the code of this file reported through `AKVerr`, in order. -/
def reported (tr : List Event) : List Reason :=
  tr.filterMap fun e => match e with
    | .AKVerr _ r => some r
    | _ => none

/-- The contexts `acquire_akv_key` returned (its non-`NULL` results). -/
def acquired (tr : List Event) : List Ptr :=
  tr.filterMap fun e => match e with
    | .acquire_akv_key _ _ _ ret => if ret = 0 then none else some ret
    | _ => none

/-- The values handed to `RSA_set_ex_data` or `EC_KEY_set_ex_data`. -/
def attached (tr : List Event) : List Ptr :=
  tr.filterMap fun e => match e with
    | .RSA_set_ex_data _ val => some val
    | .EC_KEY_set_ex_data _ val => some val
    | _ => none

/-- The contexts handed to `destroy_akv_key`. -/
def destroyed (tr : List Event) : List Ptr :=
  tr.filterMap fun e => match e with
    | .destroy_akv_key key => some key
    | _ => none

/-- The pointers handed to `free`, `free(NULL)` left out. -/
def freed (tr : List Event) : List Ptr :=
  tr.filterMap fun e => match e with
    | .free p => if p = 0 then none else some p
    | _ => none

/-- The key objects handed to `EVP_PKEY_free`. -/
def released_keys (tr : List Event) : List EVP_PKEY :=
  tr.filterMap fun e => match e with
    | .EVP_PKEY_free pkey => some pkey
    | _ => none

/-- The calls of the three collaborators `acquire_akv_key`, `GetAccessTokenFromIMDS` and
`AkvGetKey`. -/
def collaborator_calls (tr : List Event) : List Event :=
  tr.filter fun e => match e with
    | .acquire_akv_key _ _ _ _ => true
    | .GetAccessTokenFromIMDS _ _ _ => true
    | .AkvGetKey _ _ _ _ _ => true
    | _ => false

/-- The context a key object holds in the extension-data slot `load_key` uses for its
algorithm: the RSA slot of its `RSA` object, or the EC slot of its `EC_KEY` object. -/
def context_of (g : Globals) (pkey : EVP_PKEY) : Ptr :=
  if pkey.id = EVP_PKEY_RSA then
    match pkey.rsa with
    | some rsa => CRYPTO_get_ex_data rsa.ex_data g.rsa_akv_idx
    | none => 0
  else if pkey.id = EVP_PKEY_EC then
    match pkey.ec with
    | some ec => CRYPTO_get_ex_data ec.ex_data g.eckey_akv_idx
    | none => 0
  else 0

/-! ## The identifier as the specification describes it -/

/-- A vault type the specification accepts: `managedHsm` or `vault`, in any case. -/
def valid_vault_type (a : CString) : Prop :=
  a.map Char.toLower = "managedhsm".toList ∨ a.map Char.toLower = "vault".toList

instance (a : CString) : Decidable (valid_vault_type a) := by
  unfold valid_vault_type; infer_instance

/-- An identifier `A:B:C`: three non-empty components without `:` or NUL, each at most
`KEY_ID_MAX_SIZE` characters long. -/
def is_triple (KEY_ID_MAX_SIZE : Nat) (key_id a b c : CString) : Prop :=
  key_id = a ++ ':' :: (b ++ ':' :: c)
    ∧ a ≠ [] ∧ b ≠ [] ∧ c ≠ []
    ∧ ':' ∉ a ∧ ':' ∉ b ∧ ':' ∉ c
    ∧ Char.ofNat 0 ∉ a ∧ Char.ofNat 0 ∉ b ∧ Char.ofNat 0 ∉ c
    ∧ a.length ≤ KEY_ID_MAX_SIZE ∧ b.length ≤ KEY_ID_MAX_SIZE ∧ c.length ≤ KEY_ID_MAX_SIZE

/-- A well-formed identifier: `A:B:C` with a valid vault type `A`. -/
def well_formed (KEY_ID_MAX_SIZE : Nat) (key_id a b c : CString) : Prop :=
  is_triple KEY_ID_MAX_SIZE key_id a b c ∧ valid_vault_type a

/-- Context ownership at the end of a call of `load_key`.  Either no context was acquired,
and then none is attached or destroyed; or one context `ctx` was acquired and exactly one of
these happened:

* `load_key` returned 1, handed `ctx` to `RSA_set_ex_data` / `EC_KEY_set_ex_data` (once) and
  never to `destroy_akv_key`, and the key object stored in `*pevpkey` holds `ctx` in that
  slot;
* `load_key` returned 0 with `*pevpkey` `NULL`, attached nothing, and handed `ctx` to
  `destroy_akv_key` exactly once. -/
def context_settled (g : Globals) (r : Result) : Prop :=
  (acquired r.trace = [] ∧ attached r.trace = [] ∧ destroyed r.trace = [])
  ∨ ∃ ctx, ctx ≠ 0 ∧ acquired r.trace = [ctx] ∧
      ((r.ret = 1 ∧ attached r.trace = [ctx] ∧ destroyed r.trace = []
          ∧ ∃ pkey, r.pevpkey = some pkey ∧ context_of g pkey = ctx)
        ∨ (r.ret = 0 ∧ r.pevpkey = none ∧ attached r.trace = []
          ∧ destroyed r.trace = [ctx]))

/-- The call failed in the parse stage: it returned 0 with `*pevpkey` `NULL`, reported
`AKV_R_PARSE_KEY_ID_ERROR` and nothing else, and called none of `acquire_akv_key`,
`GetAccessTokenFromIMDS`, `AkvGetKey`. -/
def parse_rejected (r : Result) : Prop :=
  r.ret = 0 ∧ r.pevpkey = none
    ∧ reported r.trace = [Reason.AKV_R_PARSE_KEY_ID_ERROR]
    ∧ collaborator_calls r.trace = []

/-- The call passed the parse stage with the triple `(a, b, c)`: no parse error is reported,
`acquire_akv_key` is called first and with `(a, b, c)`, and the credential and fetch calls,
when they are made, receive `a` and `(a, b, c)`. -/
def parse_passed (env : Env) (a b c : CString) (r : Result) : Prop :=
  Reason.AKV_R_PARSE_KEY_ID_ERROR ∉ reported r.trace
    ∧ (collaborator_calls r.trace =
          [Event.acquire_akv_key a b c (env.acquire_akv_key a b c)]
      ∨ collaborator_calls r.trace =
          [Event.acquire_akv_key a b c (env.acquire_akv_key a b c),
           Event.GetAccessTokenFromIMDS a (env.GetAccessTokenFromIMDS a).1
             (env.GetAccessTokenFromIMDS a).2]
      ∨ collaborator_calls r.trace =
          [Event.acquire_akv_key a b c (env.acquire_akv_key a b c),
           Event.GetAccessTokenFromIMDS a (env.GetAccessTokenFromIMDS a).1
             (env.GetAccessTokenFromIMDS a).2,
           Event.AkvGetKey a b c (env.GetAccessTokenFromIMDS a).2
             (env.AkvGetKey a b c (env.GetAccessTokenFromIMDS a).2)])

/-- No buffer was overrun: `sscanf` stored at most `KEY_ID_MAX_SIZE + 1` bytes into each of
the three buffers. -/
def within_buffers (KEY_ID_MAX_SIZE : Nat) (r : Result) : Prop :=
  r.stored.1 ≤ KEY_ID_MAX_SIZE + 1 ∧ r.stored.2.1 ≤ KEY_ID_MAX_SIZE + 1
    ∧ r.stored.2.2 ≤ KEY_ID_MAX_SIZE + 1

/-- The outcome of `load_key` when the credential provider fails, `ctx` being the acquired
context and `memory` what the provider left in `accessToken.memory`: failure with
`*pevpkey` `NULL`, no `AKVerr` call, no fetch, the context destroyed once and not attached,
the buffer freed once if there is one. -/
def credential_failure_outcome (ctx memory : Ptr) (r : Result) : Prop :=
  r.ret = 0 ∧ r.pevpkey = none
    ∧ reported r.trace = []
    ∧ (∀ e ∈ collaborator_calls r.trace, ∀ t n k m ret, e ≠ Event.AkvGetKey t n k m ret)
    ∧ destroyed r.trace = [ctx] ∧ attached r.trace = []
    ∧ freed r.trace = (if memory = 0 then [] else [memory])
    ∧ released_keys r.trace = []

/-- The outcome of `load_key` on a fetched key `pkey` that is neither RSA nor EC: failure
with `*pevpkey` `NULL`, `AKV_R_UNSUPPORTED_KEY_ALGORITHM` reported, the key object, the
context and the credential buffer each released once, nothing attached. -/
def unsupported_outcome (ctx memory : Ptr) (pkey : EVP_PKEY) (r : Result) : Prop :=
  r.ret = 0 ∧ r.pevpkey = none
    ∧ reported r.trace = [Reason.AKV_R_UNSUPPORTED_KEY_ALGORITHM]
    ∧ released_keys r.trace = [pkey]
    ∧ destroyed r.trace = [ctx]
    ∧ freed r.trace = (if memory = 0 then [] else [memory])
    ∧ attached r.trace = []

/-! ## Concrete inputs -/

/-- Collaborators that all succeed: the context is 7, the credential buffer 9, the fetched
key an RSA key with empty extension data. -/
def env_rsa : Env :=
  { acquire_akv_key := fun _ _ _ => 7
    GetAccessTokenFromIMDS := fun _ => (1, 9)
    AkvGetKey := fun _ _ _ _ => some { id := EVP_PKEY_RSA, rsa := some { ex_data := [] }, ec := none } }

/-- Collaborators whose credential provider fails and leaves no buffer. -/
def env_no_token : Env :=
  { acquire_akv_key := fun _ _ _ => 7
    GetAccessTokenFromIMDS := fun _ => (0, 0)
    AkvGetKey := fun _ _ _ _ => none }

/-- A key object of an algorithm other than RSA and EC (`EVP_PKEY_RSA_PSS`). -/
def pss_key : EVP_PKEY := { id := EVP_PKEY_RSA_PSS, rsa := none, ec := none }

/-- Collaborators that all succeed and fetch `pss_key`. -/
def env_pss : Env :=
  { acquire_akv_key := fun _ _ _ => 7
    GetAccessTokenFromIMDS := fun _ => (1, 9)
    AkvGetKey := fun _ _ _ _ => some pss_key }

/-- Globals after a first `akv_init` in which every allocator succeeded. -/
def globals_ready : Globals := { akv_idx := 0, rsa_akv_idx := 1, eckey_akv_idx := 1 }

/-- Collaborators whose `acquire_akv_key` fails. -/
def env_no_context : Env :=
  { acquire_akv_key := fun _ _ _ => 0
    GetAccessTokenFromIMDS := fun _ => (1, 9)
    AkvGetKey := fun _ _ _ _ => none }

/-- The identifier `vault:aa...a:k` whose vault name has `KEY_ID_MAX_SIZE + 1` characters. -/
def long_name_id (KEY_ID_MAX_SIZE : Nat) : CString :=
  "vault".toList ++ ':' :: (List.replicate (KEY_ID_MAX_SIZE + 1) 'a' ++ ':' :: "k".toList)

instance (M : Nat) (key_id a b c : CString) : Decidable (is_triple M key_id a b c) := by
  unfold is_triple; infer_instance

instance (M : Nat) (key_id a b c : CString) : Decidable (well_formed M key_id a b c) := by
  unfold well_formed; infer_instance

/-- The globals after a first `akv_init` in which `ENGINE_get_ex_new_index` returned 0 and
`RSA_get_ex_new_index` failed, and a second `akv_init`, which returns 1. -/
def globals_after_failed_init : Globals :=
  (akv_init ⟨1, 1, 1⟩ (akv_init ⟨0, -1, 1⟩ {}).2.1).2.1

/-- Teardown of an `RSA` object by `akv_rsa_free`.  With an empty slot the call changes
nothing and makes no call; with a context in the slot, the context is destroyed once, no
error is reported, the slot is empty afterwards, and a second teardown of the object
changes nothing and makes no call. -/
def rsa_teardown_ok (g : Globals) (rsa : RSA) : Prop :=
  (CRYPTO_get_ex_data rsa.ex_data g.rsa_akv_idx = 0 → akv_rsa_free g rsa = (1, rsa, []))
  ∧ (CRYPTO_get_ex_data rsa.ex_data g.rsa_akv_idx ≠ 0 →
      destroyed (akv_rsa_free g rsa).2.2 = [CRYPTO_get_ex_data rsa.ex_data g.rsa_akv_idx]
      ∧ reported (akv_rsa_free g rsa).2.2 = []
      ∧ CRYPTO_get_ex_data (akv_rsa_free g rsa).2.1.ex_data g.rsa_akv_idx = 0
      ∧ akv_rsa_free g (akv_rsa_free g rsa).2.1 = (1, (akv_rsa_free g rsa).2.1, []))

/-- Teardown of an `EC_KEY` object by `akv_eckey_free`, as `rsa_teardown_ok`. -/
def eckey_teardown_ok (g : Globals) (eckey : EC_KEY) : Prop :=
  (CRYPTO_get_ex_data eckey.ex_data g.eckey_akv_idx = 0 → akv_eckey_free g eckey = (eckey, []))
  ∧ (CRYPTO_get_ex_data eckey.ex_data g.eckey_akv_idx ≠ 0 →
      destroyed (akv_eckey_free g eckey).2
        = [CRYPTO_get_ex_data eckey.ex_data g.eckey_akv_idx]
      ∧ reported (akv_eckey_free g eckey).2 = []
      ∧ CRYPTO_get_ex_data (akv_eckey_free g eckey).1.ex_data g.eckey_akv_idx = 0
      ∧ akv_eckey_free g (akv_eckey_free g eckey).1 = ((akv_eckey_free g eckey).1, []))

/-- The registry entries the claims name: the three slot indices and the two overridden
method tables. -/
inductive Entry where
  | akv_idx
  | rsa_akv_idx
  | eckey_akv_idx
  | akv_rsa_pkey_meth
  | akv_rsa_pss_pkey_meth
  deriving DecidableEq, Repr

/-- The value of a registry entry. -/
def Entry.value : Entry → Globals → Int
  | .akv_idx, g => g.akv_idx
  | .rsa_akv_idx, g => g.rsa_akv_idx
  | .eckey_akv_idx, g => g.eckey_akv_idx
  | .akv_rsa_pkey_meth, g => (g.akv_rsa_pkey_meth : Int)
  | .akv_rsa_pss_pkey_meth, g => (g.akv_rsa_pss_pkey_meth : Int)

/-- Whether a value means the entry is set: a non-negative index, a non-`NULL` table. -/
def Entry.is_set : Entry → Int → Bool
  | .akv_idx, v => decide (0 ≤ v)
  | .rsa_akv_idx, v => decide (0 ≤ v)
  | .eckey_akv_idx, v => decide (0 ≤ v)
  | .akv_rsa_pkey_meth, v => decide (v ≠ 0)
  | .akv_rsa_pss_pkey_meth, v => decide (v ≠ 0)

/-- The results of the allocator calls made for an entry, in order. -/
def Entry.allocations : Entry → List Event → List Int
  | .akv_idx, tr => tr.filterMap fun e => match e with
      | .ENGINE_get_ex_new_index r => some r
      | _ => none
  | .rsa_akv_idx, tr => tr.filterMap fun e => match e with
      | .RSA_get_ex_new_index r => some r
      | _ => none
  | .eckey_akv_idx, tr => tr.filterMap fun e => match e with
      | .EC_KEY_get_ex_new_index r => some r
      | _ => none
  | .akv_rsa_pkey_meth, tr => tr.filterMap fun e => match e with
      | .EVP_PKEY_meth_new_rsa p => some (p : Int)
      | _ => none
  | .akv_rsa_pss_pkey_meth, tr => tr.filterMap fun e => match e with
      | .EVP_PKEY_meth_new_rsa_pss p => some (p : Int)
      | _ => none

/-- How many times an entry was allocated: the allocator calls that returned a value that
sets the entry. -/
def Entry.times_allocated (e : Entry) (tr : List Event) : Nat :=
  ((e.allocations tr).filter e.is_set).length

/-- Idempotent initialisation, for the calls `first` followed by the calls `later`, all
starting from the initial globals:

* over `first`, every entry is allocated at most once;
* an entry that is set after `first` has the same value after `later`, and `later` makes
  no allocator call for it;
* once a method table is set, `akv_pkey_meths` hands out that table for its algorithm, and
  once `akv_idx` is set `akv_init` returns 1 and changes nothing. -/
def registry_idempotent (first later : List Call) : Prop :=
  (∀ e : Entry, e.times_allocated (run {} first).2 ≤ 1)
  ∧ (∀ e : Entry, e.is_set (e.value (run {} first).1) = true →
      e.value (run (run {} first).1 later).1 = e.value (run {} first).1
      ∧ e.allocations (run (run {} first).1 later).2 = [])
  ∧ (∀ (o : IndexAllocators), 0 ≤ (run {} first).1.akv_idx →
      akv_init o (run {} first).1 = (1, (run {} first).1, []))
  ∧ (∀ (meth_new meth_find : Ptr), (run {} first).1.akv_rsa_pkey_meth ≠ 0 →
      (akv_pkey_meths false EVP_PKEY_RSA meth_new meth_find (run {} first).1).1.pmeth
        = some (run {} first).1.akv_rsa_pkey_meth)
  ∧ (∀ (meth_new meth_find : Ptr), (run {} first).1.akv_rsa_pss_pkey_meth ≠ 0 →
      (akv_pkey_meths false EVP_PKEY_RSA_PSS meth_new meth_find (run {} first).1).1.pmeth
        = some (run {} first).1.akv_rsa_pss_pkey_meth)

/-- The reachable globals keep this: a slot index of a key type is allocated only after
`akv_idx` is. -/
def Globals.ordered (g : Globals) : Prop :=
  (0 ≤ g.rsa_akv_idx → 0 ≤ g.akv_idx) ∧ (0 ≤ g.eckey_akv_idx → 0 ≤ g.akv_idx)

/-! ## The scanner and the components of an identifier -/


theorem scanned_eq_three_iff (sc : Scan) :
    sc.scanned = 3 ↔ ∃ t n k, sc = .s3 t n k := by
  cases sc <;> simp [Scan.scanned]

theorem scanset_rest (s : CString) :
    (scanset_not_colon s).2 = [] ∨ ∃ r, (scanset_not_colon s).2 = ':' :: r := by
  induction s with
  | nil => simp [scanset_not_colon]
  | cons c cs ih =>
    by_cases h : c = ':'
    · subst h; simp [scanset_not_colon]
    · simpa [scanset_not_colon, h] using ih

theorem scanset_append (a rest : CString) (ha : ':' ∉ a)
    (hr : rest = [] ∨ ∃ r, rest = ':' :: r) :
    scanset_not_colon (a ++ rest) = (a, rest) := by
  induction a with
  | nil =>
    rcases hr with rfl | ⟨r, rfl⟩ <;> simp [scanset_not_colon]
  | cons c cs ih =>
    have hc : c ≠ ':' := fun h => ha (by simp [h])
    have hcs : ':' ∉ cs := fun h => ha (by simp [h])
    simp [scanset_not_colon, hc, ih hcs]

theorem sscanf_of_triple (a b c rest : CString) (ha : a ≠ []) (hb : b ≠ []) (hc : c ≠ [])
    (nca : ':' ∉ a) (ncb : ':' ∉ b) (ncc : ':' ∉ c)
    (hr : rest = [] ∨ ∃ r, rest = ':' :: r) :
    sscanf_key_id (a ++ ':' :: (b ++ ':' :: (c ++ rest))) = .s3 a b c := by
  unfold sscanf_key_id
  rw [scanset_append a _ nca (Or.inr ⟨_, rfl⟩)]
  simp only [literal_colon, if_true]
  rw [scanset_append b _ ncb (Or.inr ⟨_, rfl⟩)]
  simp only [literal_colon, if_true]
  rw [scanset_append c _ ncc hr]
  simp [ha, hb, hc]

theorem toLower_toNat_ne_zero (c : Char) (h : c ≠ Char.ofNat 0) : c.toLower.toNat ≠ 0 := by
  have h0 : c.toNat ≠ 0 := by
    intro h0
    apply h
    apply Char.ext
    apply UInt32.ext
    simpa [Char.toNat] using h0
  simp only [Char.toLower]
  by_cases hu : c.toNat ≥ 65 ∧ c.toNat ≤ 90
  · rw [if_pos hu]
    obtain ⟨h1, h2⟩ := hu
    generalize c.toNat = n at h1 h2
    interval_cases n <;> decide
  · rw [if_neg hu]; exact h0

theorem toNat_inj (c d : Char) (h : c.toNat = d.toNat) : c = d := by
  apply Char.ext
  apply UInt32.ext
  simpa [Char.toNat] using h

theorem strcasecmp_eq_zero_iff (a b : CString) (ha : Char.ofNat 0 ∉ a) (hb : Char.ofNat 0 ∉ b) :
    strcasecmp a b = 0 ↔ a.map Char.toLower = b.map Char.toLower := by
  induction a generalizing b with
  | nil =>
    cases b with
    | nil => simp [strcasecmp]
    | cons d ds =>
      have hd : d ≠ Char.ofNat 0 := fun h => hb (by simp [h])
      have := toLower_toNat_ne_zero d hd
      simp [strcasecmp]; omega
  | cons c cs ih =>
    have hc : c ≠ Char.ofNat 0 := fun h => ha (by simp [h])
    have hcs : Char.ofNat 0 ∉ cs := fun h => ha (by simp [h])
    cases b with
    | nil =>
      have := toLower_toNat_ne_zero c hc
      simp [strcasecmp]; omega
    | cons d ds =>
      have hds : Char.ofNat 0 ∉ ds := fun h => hb (by simp [h])
      by_cases e : c.toLower = d.toLower
      · simp [strcasecmp, e, ih ds hcs hds]
      · have : c.toLower.toNat ≠ d.toLower.toNat := fun h => e (toNat_inj _ _ h)
        simp [strcasecmp, e]; omega

theorem get_set_ex_data (ad : ExData) (idx : Int) (val : Ptr) (h : 0 ≤ idx) :
    CRYPTO_get_ex_data (CRYPTO_set_ex_data ad idx val) idx = val := by
  unfold CRYPTO_get_ex_data CRYPTO_set_ex_data
  rw [if_neg (not_lt.mpr h), if_neg (not_lt.mpr h)]
  rw [List.getD_eq_getElem?_getD, List.getElem?_set_self]
  · simp
  · simp; omega

theorem get_ex_data_neg (ad : ExData) (idx : Int) (h : idx < 0) :
    CRYPTO_get_ex_data ad idx = 0 := by
  simp [CRYPTO_get_ex_data, h]

/-! ## The `err:` label, read through each trace reader -/

@[simp]
theorem err_ret (p : Option EVP_PKEY) (k m : Ptr) (tr : List Event) (st : Nat × Nat × Nat) :
    (load_key_err p k m tr st).ret = 0 := rfl

@[simp]
theorem err_pevpkey (p : Option EVP_PKEY) (k m : Ptr) (tr : List Event)
    (st : Nat × Nat × Nat) : (load_key_err p k m tr st).pevpkey = none := rfl

@[simp]
theorem err_stored (p : Option EVP_PKEY) (k m : Ptr) (tr : List Event)
    (st : Nat × Nat × Nat) : (load_key_err p k m tr st).stored = st := rfl

theorem err_trace (p : Option EVP_PKEY) (k m : Ptr) (tr : List Event) (st : Nat × Nat × Nat) :
    (load_key_err p k m tr st).trace =
      tr ++ (p.toList.map Event.EVP_PKEY_free
        ++ ((if k = 0 then [] else [Event.destroy_akv_key k])
        ++ (if m = 0 then [] else [Event.free m]))) := by
  cases p <;> by_cases hk : k = 0 <;> by_cases hm : m = 0 <;> simp [load_key_err, hk, hm]

@[simp]
theorem err_acquired (p : Option EVP_PKEY) (k m : Ptr) (tr : List Event)
    (st : Nat × Nat × Nat) : acquired (load_key_err p k m tr st).trace = acquired tr := by
  rw [err_trace]
  cases p <;> by_cases hk : k = 0 <;> by_cases hm : m = 0 <;> simp [acquired, hk, hm]

@[simp]
theorem err_attached (p : Option EVP_PKEY) (k m : Ptr) (tr : List Event)
    (st : Nat × Nat × Nat) : attached (load_key_err p k m tr st).trace = attached tr := by
  rw [err_trace]
  cases p <;> by_cases hk : k = 0 <;> by_cases hm : m = 0 <;> simp [attached, hk, hm]

@[simp]
theorem err_reported (p : Option EVP_PKEY) (k m : Ptr) (tr : List Event)
    (st : Nat × Nat × Nat) : reported (load_key_err p k m tr st).trace = reported tr := by
  rw [err_trace]
  cases p <;> by_cases hk : k = 0 <;> by_cases hm : m = 0 <;> simp [reported, hk, hm]

@[simp]
theorem err_collaborator_calls (p : Option EVP_PKEY) (k m : Ptr) (tr : List Event)
    (st : Nat × Nat × Nat) :
    collaborator_calls (load_key_err p k m tr st).trace = collaborator_calls tr := by
  rw [err_trace]
  cases p <;> by_cases hk : k = 0 <;> by_cases hm : m = 0 <;>
    simp [collaborator_calls, hk, hm]

@[simp]
theorem err_destroyed (p : Option EVP_PKEY) (k m : Ptr) (tr : List Event)
    (st : Nat × Nat × Nat) :
    destroyed (load_key_err p k m tr st).trace
      = destroyed tr ++ (if k = 0 then [] else [k]) := by
  rw [err_trace]
  cases p <;> by_cases hk : k = 0 <;> by_cases hm : m = 0 <;> simp [destroyed, hk, hm]

@[simp]
theorem err_freed (p : Option EVP_PKEY) (k m : Ptr) (tr : List Event)
    (st : Nat × Nat × Nat) :
    freed (load_key_err p k m tr st).trace = freed tr ++ (if m = 0 then [] else [m]) := by
  rw [err_trace]
  cases p <;> by_cases hk : k = 0 <;> by_cases hm : m = 0 <;> simp [freed, hk, hm]

@[simp]
theorem err_released_keys (p : Option EVP_PKEY) (k m : Ptr) (tr : List Event)
    (st : Nat × Nat × Nat) :
    released_keys (load_key_err p k m tr st).trace = released_keys tr ++ p.toList := by
  rw [err_trace]
  cases p <;> by_cases hk : k = 0 <;> by_cases hm : m = 0 <;> simp [released_keys, hk, hm]

/-! ## `load_key`: context ownership -/

/-- Context ownership where the slot indices are allocated and `sscanf` stayed within the
buffers: a call of `load_key` in which `acquire_akv_key` returned a context ends with
exactly one of: the context held in the RSA or EC extension-data slot of the returned key
object, or the context passed to `destroy_akv_key` exactly once; a call that acquired no
context attaches and destroys nothing. -/
theorem load_key_context_paths (KEY_ID_MAX_SIZE : Nat) (env : Env) (g : Globals)
    (indeterminate : Ptr) (key_id : CString)
    (h1 : 0 ≤ g.rsa_akv_idx) (h2 : 0 ≤ g.eckey_akv_idx)
    (_ : within_buffers KEY_ID_MAX_SIZE (load_key env g indeterminate key_id)) :
    context_settled g (load_key env g indeterminate key_id) := by
  unfold context_settled
  generalize hr : load_key env g indeterminate key_id = r
  unfold load_key at hr
  simp only [] at hr
  repeat' split at hr
  all_goals subst hr
  all_goals simp only [err_ret, err_pevpkey, err_acquired, err_attached, err_destroyed]
  all_goals simp [acquired, attached, destroyed, *]
  · have hk := ‹¬ env.acquire_akv_key _ _ _ = 0›
    simp only [context_of, if_true, get_set_ex_data _ _ _ h1]
    exact ⟨hk, trivial⟩
  · have hk := ‹¬ env.acquire_akv_key _ _ _ = 0›
    have hne : ¬ (EVP_PKEY_EC = EVP_PKEY_RSA) := by decide
    simp only [context_of, hne, if_false, if_true, get_set_ex_data _ _ _ h2]
    exact ⟨hk, trivial⟩

/-- Claim C1 fails on the code.  After an `akv_init` that failed at the RSA index and a
second `akv_init` that returned 1, `rsa_akv_idx` is -1.  With the well-formed identifier
`vault:v:k` and collaborators that succeed with an RSA key, `load_key` calls
`RSA_set_ex_data(rsa, -1, key)`, which stores nothing, sets `key` to `NULL` and returns 1:
the context 7 is neither in the slot of the returned key object nor passed to
`destroy_akv_key`. -/
theorem load_key_leaves_context_unowned :
    globals_after_failed_init = { akv_idx := 0, rsa_akv_idx := -1, eckey_akv_idx := -1 }
      ∧ (akv_init ⟨1, 1, 1⟩ (akv_init ⟨0, -1, 1⟩ {}).2.1).1 = 1
      ∧ well_formed 256 "vault:v:k".toList "vault".toList "v".toList "k".toList
      ∧ load_key env_rsa globals_after_failed_init 0 "vault:v:k".toList
          = { ret := 1
              pevpkey := some { id := EVP_PKEY_RSA, rsa := some { ex_data := [] }, ec := none }
              trace :=
                [Event.acquire_akv_key "vault".toList "v".toList "k".toList 7,
                 Event.GetAccessTokenFromIMDS "vault".toList 1 9,
                 Event.AkvGetKey "vault".toList "v".toList "k".toList 9
                   (some { id := EVP_PKEY_RSA, rsa := some { ex_data := [] }, ec := none }),
                 Event.RSA_set_ex_data (-1) 7,
                 Event.free 9]
              stored := (6, 2, 2) }
      ∧ context_of globals_after_failed_init
          { id := EVP_PKEY_RSA, rsa := some { ex_data := [] }, ec := none } = 0
      ∧ destroyed (load_key env_rsa globals_after_failed_init 0 "vault:v:k".toList).trace
          = [] := by
  refine ⟨by decide, by decide, by decide, by decide, by decide, by decide⟩

/-! ## `load_key`: the parse stage -/

theorem vault_type_test (a : CString) (ha : Char.ofNat 0 ∉ a) :
    ¬ (strcasecmp a "managedHsm".toList ≠ 0 ∧ strcasecmp a "vault".toList ≠ 0)
      ↔ valid_vault_type a := by
  have h1 := strcasecmp_eq_zero_iff a "managedHsm".toList ha (by decide)
  have h2 := strcasecmp_eq_zero_iff a "vault".toList ha (by decide)
  have e1 : "managedHsm".toList.map Char.toLower = "managedhsm".toList := by decide
  have e2 : "vault".toList.map Char.toLower = "vault".toList := by decide
  rw [e1] at h1
  rw [e2] at h2
  unfold valid_vault_type
  rw [← h1, ← h2]
  tauto

theorem load_key_of_invalid_type (env : Env) (g : Globals) (indeterminate : Ptr)
    (key_id a b c : CString) (hs : sscanf_key_id key_id = .s3 a b c)
    (hv : strcasecmp a "managedHsm".toList ≠ 0 ∧ strcasecmp a "vault".toList ≠ 0) :
    load_key env g indeterminate key_id =
      load_key_err none 0 indeterminate
        [.AKVerr .AKV_F_LOAD_KEY_CERT .AKV_R_PARSE_KEY_ID_ERROR]
        (Scan.s3 a b c).stored := by
  unfold load_key
  simp only [hs]
  rw [if_pos hv]

theorem parse_passed_of_valid (env : Env) (g : Globals) (indeterminate : Ptr)
    (key_id a b c : CString) (hs : sscanf_key_id key_id = .s3 a b c)
    (hv : ¬ (strcasecmp a "managedHsm".toList ≠ 0 ∧ strcasecmp a "vault".toList ≠ 0)) :
    parse_passed env a b c (load_key env g indeterminate key_id) := by
  unfold parse_passed
  generalize hr : load_key env g indeterminate key_id = r
  unfold load_key at hr
  simp only [hs, hv, if_false] at hr
  repeat' split at hr
  all_goals subst hr
  all_goals simp only [err_reported, err_collaborator_calls]
  all_goals simp [reported, collaborator_calls, *]

/-- Claim C3.  For an identifier `A:B:C` with three non-empty components free of `:`, each
at most `KEY_ID_MAX_SIZE` characters long: no buffer is overrun; `load_key` passes the
parse stage exactly when `A` is `managedHsm` or `vault` compared without regard to case,
and then the collaborators receive `(A, B, C)` as written; for any other `A` the call is
rejected with `AKV_R_PARSE_KEY_ID_ERROR`. -/
theorem load_key_parse_stage (KEY_ID_MAX_SIZE : Nat) (env : Env) (g : Globals)
    (indeterminate : Ptr) (key_id a b c : CString)
    (h : is_triple KEY_ID_MAX_SIZE key_id a b c) :
    within_buffers KEY_ID_MAX_SIZE (load_key env g indeterminate key_id)
      ∧ (parse_passed env a b c (load_key env g indeterminate key_id) ↔ valid_vault_type a)
      ∧ (parse_rejected (load_key env g indeterminate key_id) ↔ ¬ valid_vault_type a) := by
  obtain ⟨hk, ha, hb, hc, nca, ncb, ncc, za, _, _, la, lb, lc⟩ := h
  have hs : sscanf_key_id key_id = .s3 a b c := by
    have := sscanf_of_triple a b c [] ha hb hc nca ncb ncc (Or.inl rfl)
    rw [List.append_nil] at this
    rw [hk]; exact this
  have hst : (load_key env g indeterminate key_id).stored = (Scan.s3 a b c).stored := by
    unfold load_key
    simp only [hs]
    repeat' split
    all_goals simp
  have hw : within_buffers KEY_ID_MAX_SIZE (load_key env g indeterminate key_id) := by
    unfold within_buffers
    rw [hst]
    simp only [Scan.stored]
    omega
  refine ⟨hw, ?_⟩
  by_cases hv : valid_vault_type a
  · have hv2 := (vault_type_test a za).mpr hv
    have hp := parse_passed_of_valid env g indeterminate key_id a b c hs hv2
    refine ⟨⟨fun _ => hv, fun _ => hp⟩, ⟨fun hrej => ?_, fun hn => absurd hv hn⟩⟩
    exact absurd (by rw [hrej.2.2.1]; simp) hp.1
  · have hv2 : strcasecmp a "managedHsm".toList ≠ 0 ∧ strcasecmp a "vault".toList ≠ 0 := by
      by_contra hc2
      exact hv ((vault_type_test a za).mp hc2)
    have hrej : parse_rejected (load_key env g indeterminate key_id) := by
      rw [load_key_of_invalid_type env g indeterminate key_id a b c hs hv2]
      unfold parse_rejected
      simp only [err_ret, err_pevpkey, err_reported, err_collaborator_calls]
      simp [reported, collaborator_calls]
    refine ⟨⟨fun hp => ?_, fun h => absurd h hv⟩, ⟨fun _ => hv, fun _ => hrej⟩⟩
    exact absurd (by rw [hrej.2.2.1]; simp) hp.1

/-- An instance of C3: `vault:myvault:mykey` passes with the triple as written. -/
theorem load_key_parse_stage_witness :
    is_triple 256 "vault:myvault:mykey".toList "vault".toList "myvault".toList "mykey".toList
      ∧ within_buffers 256 (load_key env_rsa globals_ready 0 "vault:myvault:mykey".toList)
      ∧ (parse_passed env_rsa "vault".toList "myvault".toList "mykey".toList
            (load_key env_rsa globals_ready 0 "vault:myvault:mykey".toList)
          ↔ valid_vault_type "vault".toList)
      ∧ (parse_rejected (load_key env_rsa globals_ready 0 "vault:myvault:mykey".toList)
          ↔ ¬ valid_vault_type "vault".toList) :=
  ⟨by decide,
    load_key_parse_stage 256 env_rsa globals_ready 0 "vault:myvault:mykey".toList
      "vault".toList "myvault".toList "mykey".toList (by decide)⟩

theorem sscanf_of_well_formed (M : Nat) (key_id a b c : CString)
    (h : well_formed M key_id a b c) :
    sscanf_key_id key_id = .s3 a b c
      ∧ ¬ (strcasecmp a "managedHsm".toList ≠ 0 ∧ strcasecmp a "vault".toList ≠ 0) := by
  obtain ⟨⟨hk, ha, hb, hc, nca, ncb, ncc, za, _, _, _, _, _⟩, hv⟩ := h
  refine ⟨?_, (vault_type_test a za).mpr hv⟩
  have := sscanf_of_triple a b c [] ha hb hc nca ncb ncc (Or.inl rfl)
  rw [List.append_nil] at this
  rw [hk]; exact this

/-! ## `load_key`: buffers and the credential -/

/-- Claim C4 fails on the code.  For every value of `KEY_ID_MAX_SIZE`, the identifier
`vault:aa...a:k` with a vault name of `KEY_ID_MAX_SIZE + 1` characters makes `sscanf` store
`KEY_ID_MAX_SIZE + 2` bytes into the `KEY_ID_MAX_SIZE + 1` byte buffer `keyvault_name`, and
the identifier is not rejected: the parse stage passes and `acquire_akv_key` is called. -/
theorem load_key_overruns_keyvault_name (KEY_ID_MAX_SIZE : Nat) (env : Env) (g : Globals)
    (indeterminate : Ptr) :
    (load_key env g indeterminate (long_name_id KEY_ID_MAX_SIZE)).stored.2.1
        = KEY_ID_MAX_SIZE + 2
      ∧ ¬ within_buffers KEY_ID_MAX_SIZE
          (load_key env g indeterminate (long_name_id KEY_ID_MAX_SIZE))
      ∧ parse_passed env "vault".toList (List.replicate (KEY_ID_MAX_SIZE + 1) 'a') "k".toList
          (load_key env g indeterminate (long_name_id KEY_ID_MAX_SIZE)) := by
  have hs : sscanf_key_id (long_name_id KEY_ID_MAX_SIZE)
      = .s3 "vault".toList (List.replicate (KEY_ID_MAX_SIZE + 1) 'a') "k".toList := by
    have := sscanf_of_triple "vault".toList (List.replicate (KEY_ID_MAX_SIZE + 1) 'a')
      "k".toList [] (by decide) (by simp) (by decide) (by decide)
      (by simp [List.mem_replicate]) (by decide) (Or.inl rfl)
    rw [List.append_nil] at this
    exact this
  have hst : (load_key env g indeterminate (long_name_id KEY_ID_MAX_SIZE)).stored
      = (Scan.s3 "vault".toList (List.replicate (KEY_ID_MAX_SIZE + 1) 'a')
          "k".toList).stored := by
    unfold load_key
    simp only [hs]
    repeat' split
    all_goals simp
  have h2 : (load_key env g indeterminate (long_name_id KEY_ID_MAX_SIZE)).stored.2.1
      = KEY_ID_MAX_SIZE + 2 := by
    rw [hst]; simp [Scan.stored]
  refine ⟨h2, ?_, ?_⟩
  · intro hw
    have := hw.2.1
    omega
  · exact parse_passed_of_valid env g indeterminate _ _ _ _ hs (by decide)

/-- Claim C5 fails on the code.  On each path that fails before the credential is requested
(two components only; an invalid vault type; `acquire_akv_key` failing) `load_key` reaches
`err:` without having run the initialiser of `accessToken`, reads `accessToken.memory` there
and, finding the indeterminate value 99 in it, passes it to `free`; no credential was
requested on any of the three paths. -/
theorem load_key_frees_indeterminate_token :
    (load_key env_rsa globals_ready 99 "vault:bar".toList).trace
        = [Event.AKVerr .AKV_F_LOAD_KEY_CERT .AKV_R_PARSE_KEY_ID_ERROR, Event.free 99]
      ∧ (load_key env_rsa globals_ready 99 "foo:bar:baz".toList).trace
        = [Event.AKVerr .AKV_F_LOAD_KEY_CERT .AKV_R_PARSE_KEY_ID_ERROR, Event.free 99]
      ∧ (load_key env_no_context globals_ready 99 "vault:v:k".toList).trace
        = [Event.acquire_akv_key "vault".toList "v".toList "k".toList 0,
           Event.AKVerr .AKV_F_LOAD_KEY_CERT .AKV_R_CANT_GET_KEY, Event.free 99]
      ∧ (load_key env_rsa globals_ready 0 "vault:bar".toList).trace
        = [Event.AKVerr .AKV_F_LOAD_KEY_CERT .AKV_R_PARSE_KEY_ID_ERROR] := by
  refine ⟨by decide, by decide, by decide, by decide⟩

theorem load_key_early_failure (env : Env) (g : Globals) (indeterminate : Ptr)
    (key_id : CString)
    (h : ∀ t r m, Event.GetAccessTokenFromIMDS t r m
          ∉ (load_key env g indeterminate key_id).trace) :
    freed (load_key env g indeterminate key_id).trace
      = if indeterminate = 0 then [] else [indeterminate] := by
  revert h
  generalize hr : load_key env g indeterminate key_id = r
  unfold load_key at hr
  simp only [] at hr
  repeat' split at hr
  all_goals subst hr
  all_goals intro h
  all_goals simp only [err_freed]
  all_goals first
    | (simp [freed]; done)
    | (exfalso
       simp [err_trace] at h
       exact h _ _ _ rfl rfl rfl)

/-- Claim C6 fails on the code.  With the well-formed identifier `vault:v:k` and a credential
provider that fails, `load_key` returns 0 with `*pevpkey` `NULL`, never calls `AkvGetKey`
and destroys the context 7 once, but makes no `AKVerr` call: lines 257-260 go to `err:`
without recording the failure, the only failing exit of `load_key` that does so. -/
theorem load_key_credential_failure_unreported :
    well_formed 256 "vault:v:k".toList "vault".toList "v".toList "k".toList
      ∧ (load_key env_no_token globals_ready 0 "vault:v:k".toList).ret = 0
      ∧ (load_key env_no_token globals_ready 0 "vault:v:k".toList).pevpkey = none
      ∧ (load_key env_no_token globals_ready 0 "vault:v:k".toList).trace
          = [Event.acquire_akv_key "vault".toList "v".toList "k".toList 7,
             Event.GetAccessTokenFromIMDS "vault".toList 0 0,
             Event.destroy_akv_key 7]
      ∧ reported (load_key env_no_token globals_ready 0 "vault:v:k".toList).trace = [] := by
  refine ⟨by decide, by decide, by decide, by decide, by decide⟩

/-- What `load_key` does on every well-formed identifier when `acquire_akv_key` returned a
context and `GetAccessTokenFromIMDS` fails: it returns 0 with `*pevpkey` `NULL`, makes no
`AKVerr` call, never calls `AkvGetKey`, destroys the context exactly once without
attaching it, and frees the buffer the provider left, if any, once. -/
theorem load_key_credential_failure (KEY_ID_MAX_SIZE : Nat) (env : Env) (g : Globals)
    (indeterminate : Ptr) (key_id a b c : CString)
    (h : well_formed KEY_ID_MAX_SIZE key_id a b c)
    (hacq : env.acquire_akv_key a b c ≠ 0)
    (hfail : (env.GetAccessTokenFromIMDS a).1 = 0) :
    credential_failure_outcome (env.acquire_akv_key a b c) (env.GetAccessTokenFromIMDS a).2
      (load_key env g indeterminate key_id) := by
  obtain ⟨hs, hv⟩ := sscanf_of_well_formed KEY_ID_MAX_SIZE key_id a b c h
  have hr : load_key env g indeterminate key_id
      = load_key_err none (env.acquire_akv_key a b c) (env.GetAccessTokenFromIMDS a).2
          ([Event.acquire_akv_key a b c (env.acquire_akv_key a b c)]
            ++ [Event.GetAccessTokenFromIMDS a (env.GetAccessTokenFromIMDS a).1
                  (env.GetAccessTokenFromIMDS a).2])
          (Scan.s3 a b c).stored := by
    unfold load_key
    simp only [hs]
    rw [if_neg hv, if_neg hacq, if_pos hfail]
  rw [hr]
  unfold credential_failure_outcome
  simp only [err_ret, err_pevpkey, err_reported, err_collaborator_calls, err_destroyed,
    err_attached, err_freed, err_released_keys]
  simp [reported, collaborator_calls, destroyed, attached, freed, released_keys, hacq]

/-- The credential failure at `vault:v:k` with a provider that fails. -/
theorem load_key_credential_failure_witness :
    well_formed 256 "vault:v:k".toList "vault".toList "v".toList "k".toList
      ∧ credential_failure_outcome 7 0
          (load_key env_no_token globals_ready 0 "vault:v:k".toList) :=
  ⟨by decide,
    load_key_credential_failure 256 env_no_token globals_ready 0 "vault:v:k".toList
      "vault".toList "v".toList "k".toList (by decide) (by decide) (by decide)⟩

/-- Claim C7.  For a well-formed identifier, when the context and the credential were
obtained and `AkvGetKey` returns a key whose algorithm id is neither `EVP_PKEY_RSA` nor
`EVP_PKEY_EC`, `load_key` returns 0 with `*pevpkey` `NULL`, reports
`AKV_R_UNSUPPORTED_KEY_ALGORITHM`, and releases the fetched key object, the context and
the credential buffer once each; no context is attached. -/
theorem load_key_unsupported_algorithm (KEY_ID_MAX_SIZE : Nat) (env : Env) (g : Globals)
    (indeterminate : Ptr) (key_id a b c : CString) (pkey : EVP_PKEY)
    (h : well_formed KEY_ID_MAX_SIZE key_id a b c)
    (hacq : env.acquire_akv_key a b c ≠ 0)
    (htok : (env.GetAccessTokenFromIMDS a).1 ≠ 0)
    (hkey : env.AkvGetKey a b c (env.GetAccessTokenFromIMDS a).2 = some pkey)
    (hrsa : pkey.id ≠ EVP_PKEY_RSA) (hec : pkey.id ≠ EVP_PKEY_EC) :
    unsupported_outcome (env.acquire_akv_key a b c) (env.GetAccessTokenFromIMDS a).2 pkey
      (load_key env g indeterminate key_id) := by
  obtain ⟨hs, hv⟩ := sscanf_of_well_formed KEY_ID_MAX_SIZE key_id a b c h
  have hr : load_key env g indeterminate key_id
      = load_key_err (some pkey) (env.acquire_akv_key a b c) (env.GetAccessTokenFromIMDS a).2
          ([Event.acquire_akv_key a b c (env.acquire_akv_key a b c)]
            ++ [Event.GetAccessTokenFromIMDS a (env.GetAccessTokenFromIMDS a).1
                  (env.GetAccessTokenFromIMDS a).2]
            ++ [Event.AkvGetKey a b c (env.GetAccessTokenFromIMDS a).2 (some pkey)]
            ++ [Event.AKVerr .AKV_F_LOAD_KEY_CERT .AKV_R_UNSUPPORTED_KEY_ALGORITHM])
          (Scan.s3 a b c).stored := by
    unfold load_key
    simp only [hs]
    rw [if_neg hv, if_neg hacq, if_neg htok]
    simp only [hkey]
    rw [if_neg hrsa, if_neg hec]
  rw [hr]
  unfold unsupported_outcome
  simp only [err_ret, err_pevpkey, err_reported, err_collaborator_calls, err_destroyed,
    err_attached, err_freed, err_released_keys]
  simp [reported, destroyed, attached, freed, released_keys, hacq]

/-- An instance of C7: the fetched key is an RSA-PSS key. -/
theorem load_key_unsupported_algorithm_witness :
    well_formed 256 "vault:v:k".toList "vault".toList "v".toList "k".toList
      ∧ unsupported_outcome 7 9 pss_key (load_key env_pss globals_ready 0 "vault:v:k".toList) :=
  ⟨by decide,
    load_key_unsupported_algorithm 256 env_pss globals_ready 0 "vault:v:k".toList
      "vault".toList "v".toList "k".toList pss_key (by decide) (by decide) (by decide)
      rfl (by decide) (by decide)⟩

/-! ## Teardown redirectors -/

theorem get_clear_ex_data (ad : ExData) (idx : Int) :
    CRYPTO_get_ex_data (CRYPTO_set_ex_data ad idx 0) idx = 0 := by
  by_cases h : idx < 0
  · exact get_ex_data_neg _ _ h
  · exact get_set_ex_data _ _ _ (not_lt.mp h)

/-- Claim C8.  `akv_rsa_free` and `akv_eckey_free` applied to any key object: with an empty
extension-data slot the call does nothing (no `destroy_akv_key`, the object unchanged, no
error); with a context in the slot the context is destroyed exactly once and the slot is
emptied, so that a second teardown of the same object destroys nothing. -/
theorem teardown_redirectors (g : Globals) (rsa : RSA) (eckey : EC_KEY) :
    rsa_teardown_ok g rsa ∧ eckey_teardown_ok g eckey := by
  refine ⟨⟨fun h => ?_, fun h => ?_⟩, ⟨fun h => ?_, fun h => ?_⟩⟩
  · simp [akv_rsa_free, h]
  · have hc := get_clear_ex_data rsa.ex_data g.rsa_akv_idx
    simp [akv_rsa_free, h, destroyed, reported, hc]
  · simp [akv_eckey_free, h]
  · have hc := get_clear_ex_data eckey.ex_data g.eckey_akv_idx
    simp [akv_eckey_free, h, destroyed, reported, hc]

/-- An instance of C8: an RSA object holding the context 7 in slot 1; the first teardown
destroys 7 and empties the slot, the second one does nothing. -/
theorem teardown_redirectors_witness :
    (rsa_teardown_ok globals_ready { ex_data := [0, 7] }
        ∧ eckey_teardown_ok globals_ready { ex_data := [] })
      ∧ akv_rsa_free globals_ready { ex_data := [0, 7] }
          = (1, { ex_data := [0, 0] },
              [Event.destroy_akv_key 7, Event.RSA_set_ex_data 1 0])
      ∧ akv_rsa_free globals_ready { ex_data := [0, 0] } = (1, { ex_data := [0, 0] }, []) :=
  ⟨teardown_redirectors globals_ready { ex_data := [0, 7] } { ex_data := [] },
    by decide, by decide⟩

/-! ## The registry -/

/-- Claim C10 fails on the code.  A first `akv_init` in which `ENGINE_get_ex_new_index`
succeeds and `RSA_get_ex_new_index` fails returns 0 and leaves `akv_idx = 0`; the next
`akv_init` finds `akv_idx` non-negative, skips every allocation and returns 1 with
`rsa_akv_idx` and `eckey_akv_idx` still -1.  The same happens for `eckey_akv_idx` alone
when only `EC_KEY_get_ex_new_index` failed. -/
theorem akv_init_succeeds_with_unallocated_indices :
    (akv_init ⟨0, -1, 1⟩ {}).1 = 0
      ∧ (akv_init ⟨0, -1, 1⟩ {}).2.1.akv_idx = 0
      ∧ (akv_init ⟨1, 1, 1⟩ (akv_init ⟨0, -1, 1⟩ {}).2.1).1 = 1
      ∧ (akv_init ⟨1, 1, 1⟩ (akv_init ⟨0, -1, 1⟩ {}).2.1).2.1.rsa_akv_idx = -1
      ∧ (akv_init ⟨1, 1, 1⟩ (akv_init ⟨0, -1, 1⟩ {}).2.1).2.1.eckey_akv_idx = -1
      ∧ (akv_init ⟨0, 1, -1⟩ {}).1 = 0
      ∧ (akv_init ⟨1, 1, 1⟩ (akv_init ⟨0, 1, -1⟩ {}).2.1).1 = 1
      ∧ (akv_init ⟨1, 1, 1⟩ (akv_init ⟨0, 1, -1⟩ {}).2.1).2.1.eckey_akv_idx = -1 := by
  refine ⟨by decide, by decide, by decide, by decide, by decide, by decide, by decide,
    by decide⟩

theorem akv_init_after_failed_rsa_index (o1 o2 : IndexAllocators)
    (h1 : 0 ≤ o1.ENGINE_get_ex_new_index) (h2 : o1.RSA_get_ex_new_index < 0) :
    (akv_init o1 {}).1 = 0
      ∧ (akv_init o2 (akv_init o1 {}).2.1).1 = 1
      ∧ (akv_init o2 (akv_init o1 {}).2.1).2.1.rsa_akv_idx < 0
      ∧ (akv_init o2 (akv_init o1 {}).2.1).2.1.eckey_akv_idx < 0 := by
  have e : akv_init o1 {} =
      (0, { akv_idx := o1.ENGINE_get_ex_new_index, rsa_akv_idx := o1.RSA_get_ex_new_index },
        [Event.ENGINE_get_ex_new_index o1.ENGINE_get_ex_new_index,
         Event.RSA_get_ex_new_index o1.RSA_get_ex_new_index,
         Event.AKVerr .AKV_F_INIT .AKV_R_ALLOC_FAILURE]) := by
    simp [akv_init, akv_init_err, not_lt.mpr h1, h2]
  rw [e]
  simp [akv_init, not_lt.mpr h1, h2]

theorem akv_init_first_call (o : IndexAllocators) (h : (akv_init o {}).1 = 1) :
    0 ≤ (akv_init o {}).2.1.akv_idx ∧ 0 ≤ (akv_init o {}).2.1.rsa_akv_idx
      ∧ 0 ≤ (akv_init o {}).2.1.eckey_akv_idx := by
  revert h
  unfold akv_init akv_init_err
  simp only []
  repeat' split
  all_goals simp_all

theorem init_ordered (o : IndexAllocators) (g : Globals) (hg : g.ordered) :
    (akv_init o g).2.1.ordered := by
  unfold Globals.ordered at *
  unfold akv_init akv_init_err
  simp only []
  repeat' split
  all_goals simp_all
  all_goals omega

theorem meths_ordered (pmeth_null : Bool) (nid : Int) (meth_new meth_find : Ptr) (g : Globals)
    (hg : g.ordered) : (akv_pkey_meths pmeth_null nid meth_new meth_find g).2.1.ordered := by
  unfold Globals.ordered at *
  unfold akv_pkey_meths
  repeat' split
  all_goals simp_all

theorem init_entry (o : IndexAllocators) (g : Globals) (hg : g.ordered) (e : Entry) :
    (e.is_set (e.value g) = true →
        e.value (akv_init o g).2.1 = e.value g ∧ e.allocations (akv_init o g).2.2 = [])
      ∧ (e.is_set (e.value g) = false →
        e.times_allocated (akv_init o g).2.2
          = if e.is_set (e.value (akv_init o g).2.1) = true then 1 else 0) := by
  unfold Globals.ordered at hg
  unfold akv_init akv_init_err
  simp only []
  cases e <;> repeat' split
  all_goals simp_all [Entry.value, Entry.is_set, Entry.allocations, Entry.times_allocated]
  all_goals omega

theorem meths_entry (pmeth_null : Bool) (nid : Int) (meth_new meth_find : Ptr) (g : Globals)
    (e : Entry) :
    (e.is_set (e.value g) = true →
        e.value (akv_pkey_meths pmeth_null nid meth_new meth_find g).2.1 = e.value g
        ∧ e.allocations (akv_pkey_meths pmeth_null nid meth_new meth_find g).2.2 = [])
      ∧ (e.is_set (e.value g) = false →
        e.times_allocated (akv_pkey_meths pmeth_null nid meth_new meth_find g).2.2
          = if e.is_set (e.value (akv_pkey_meths pmeth_null nid meth_new meth_find g).2.1)
              = true then 1 else 0) := by
  unfold akv_pkey_meths
  cases e <;> repeat' split
  all_goals simp_all [Entry.value, Entry.is_set, Entry.allocations, Entry.times_allocated]

theorem step_ordered (c : Call) (g : Globals) (hg : g.ordered) : (c.step g).1.ordered := by
  cases c with
  | akv_init o => exact init_ordered o g hg
  | akv_pkey_meths p n m f => exact meths_ordered p n m f g hg

theorem step_entry (c : Call) (g : Globals) (hg : g.ordered) (e : Entry) :
    (e.is_set (e.value g) = true →
        e.value (c.step g).1 = e.value g ∧ e.allocations (c.step g).2 = [])
      ∧ (e.is_set (e.value g) = false →
        e.times_allocated (c.step g).2
          = if e.is_set (e.value (c.step g).1) = true then 1 else 0) := by
  cases c with
  | akv_init o => exact init_entry o g hg e
  | akv_pkey_meths p n m f => exact meths_entry p n m f g e

theorem allocations_append (e : Entry) (tr1 tr2 : List Event) :
    e.allocations (tr1 ++ tr2) = e.allocations tr1 ++ e.allocations tr2 := by
  cases e <;> simp [Entry.allocations]

theorem times_allocated_append (e : Entry) (tr1 tr2 : List Event) :
    e.times_allocated (tr1 ++ tr2) = e.times_allocated tr1 + e.times_allocated tr2 := by
  simp [Entry.times_allocated, allocations_append]

theorem run_ordered (cs : List Call) (g : Globals) (hg : g.ordered) : (run g cs).1.ordered := by
  induction cs generalizing g with
  | nil => exact hg
  | cons c cs ih => exact ih _ (step_ordered c g hg)

theorem run_kept (cs : List Call) (g : Globals) (hg : g.ordered) (e : Entry)
    (hs : e.is_set (e.value g) = true) :
    e.value (run g cs).1 = e.value g ∧ e.allocations (run g cs).2 = [] := by
  induction cs generalizing g with
  | nil => cases e <;> simp [run, Entry.allocations]
  | cons c cs ih =>
    obtain ⟨hv, ha⟩ := (step_entry c g hg e).1 hs
    obtain ⟨hv2, ha2⟩ := ih (c.step g).1 (step_ordered c g hg) (by rw [hv]; exact hs)
    simp only [run]
    rw [allocations_append, ha, ha2, hv2, hv]
    exact ⟨rfl, rfl⟩

theorem run_times_allocated (cs : List Call) (g : Globals) (hg : g.ordered) (e : Entry)
    (hs : e.is_set (e.value g) = false) :
    e.times_allocated (run g cs).2 = if e.is_set (e.value (run g cs).1) = true then 1 else 0 := by
  induction cs generalizing g with
  | nil => cases e <;> simp_all [run, Entry.times_allocated, Entry.allocations]
  | cons c cs ih =>
    have h1 := (step_entry c g hg e).2 hs
    simp only [run]
    rw [times_allocated_append, h1]
    by_cases hset : e.is_set (e.value (c.step g).1) = true
    · obtain ⟨hv2, ha2⟩ := run_kept cs (c.step g).1 (step_ordered c g hg) e hset
      have : e.times_allocated (run (c.step g).1 cs).2 = 0 := by
        simp [Entry.times_allocated, ha2]
      rw [this]
      simp only [hv2, hset, if_true]
    · have hset2 : e.is_set (e.value (c.step g).1) = false := by simpa using hset
      rw [ih (c.step g).1 (step_ordered c g hg) hset2]
      simp [hset2]

theorem initial_ordered : ({} : Globals).ordered := by
  unfold Globals.ordered; decide

theorem initial_unset (e : Entry) : e.is_set (e.value {}) = false := by
  cases e <;> decide

/-- Claim C9.  For every sequence of calls of `akv_init` and `akv_pkey_meths` made one after
the other from the initial state, each slot index and each overridden method table is
allocated at most once, and an entry that is set keeps its value through every later call,
which makes no allocator call for it and hands the same table out. -/
theorem registry_init_idempotent (first later : List Call) :
    registry_idempotent first later := by
  have ho := run_ordered first {} initial_ordered
  refine ⟨fun e => ?_, fun e hs => run_kept later _ ho e hs, fun o h => ?_, fun n f h => ?_,
    fun n f h => ?_⟩
  · rw [run_times_allocated first {} initial_ordered e (initial_unset e)]
    split <;> omega
  · simp [akv_init, not_lt.mpr h]
  · simp [akv_pkey_meths, h]
  · have h1 : ¬ (EVP_PKEY_RSA_PSS = EVP_PKEY_RSA) := by decide
    simp [akv_pkey_meths, h, h1]

end AKV
